import Mathlib

/-!
Shallow embedding of the local persistence and backup/restore subsystem of the
sober-balance application (`src/utils/database.ts`), together with theorems
settling the frozen claims about it.

Tables of the structured store are modelled as lists of typed rows; the
autoincrement sequence of each table that receives plain `INSERT`s is carried
explicitly (SQLite `AUTOINCREMENT` never reuses ids after deletes).  The
key-value area (AsyncStorage) is modelled as an association list.  Fallible
store primitives are modelled by an explicit injected outcome (`Option DBErr`):
`none` means the underlying statement succeeds, `some e` means it throws `e`;
each method's `try`/`catch` structure is transcribed from the source.
-/

namespace SoberBalance

/-- Errors thrown by the embedded data layer. `notInitialized` is the
`'Database not initialized'` error, `sql n` an arbitrary storage error. -/
inductive DBErr where
  | notInitialized
  | initFailed
  | sql (code : Nat)
deriving Repr, DecidableEq

/-- Row of the `users` table (interface `User` in the source). -/
structure UserRow where
  id : Nat
  name : String
  has_completed_onboarding : Bool
  setup_step : Nat
  created_at : Option String
  updated_at : Option String
deriving Repr, DecidableEq

/-- Row of the `support_persons` table (interface `SupportPerson`). -/
structure SupportPersonRow where
  id : Nat
  name : String
  phone : String
  created_at : Option String
  updated_at : Option String
deriving Repr, DecidableEq

/-- Row of the `sobriety_data` table (interface `SobrietyData`).
`tracking_mode` is optional because pre-migration rows may lack it. -/
structure SobrietyRow where
  id : Nat
  tracking_sobriety : Bool
  tracking_mode : Option String
  sober_date : Option String
  created_at : Option String
  updated_at : Option String
deriving Repr, DecidableEq

/-- Row of the `user_reasons` table (interface `UserReason`). -/
structure ReasonRow where
  id : Nat
  reason : String
  created_at : Option String
deriving Repr, DecidableEq

/-- Row of the `journal_entries` table (interface `JournalEntry`). -/
structure JournalRow where
  id : Nat
  content : String
  timestamp : String
  created_at : Option String
  updated_at : Option String
deriving Repr, DecidableEq

/-- Row of the `intentions` table (interface `Intention`). -/
structure IntentionRow where
  id : Nat
  content : String
  timestamp : String
  created_at : Option String
  updated_at : Option String
deriving Repr, DecidableEq

/-- Row of the `daily_check_ins` table (interface `DailyCheckIn`);
`date` carries the `UNIQUE` constraint. -/
structure CheckInRow where
  id : Nat
  goal : String
  energy : String
  tone : String
  thankful : String
  date : String
  created_at : Option String
deriving Repr, DecidableEq

/-- Row of the `sos_logs` table. -/
structure SosLogRow where
  id : Nat
  timestamp : String
  created_at : Option String
deriving Repr, DecidableEq

/-- Row of the `encouragements` table (interface `Encouragement`). -/
structure EncouragementRow where
  id : Nat
  message : String
  seen : Bool
  created_at : Option String
  updated_at : Option String
deriving Repr, DecidableEq

/-- The structured store: one list per table from `createTables`, plus the
autoincrement sequence of each table that receives plain `INSERT`s. -/
@[ext]
structure Store where
  users : List UserRow
  support_persons : List SupportPersonRow
  sobriety_data : List SobrietyRow
  user_reasons : List ReasonRow
  sos_logs : List SosLogRow
  journal_entries : List JournalRow
  intentions : List IntentionRow
  daily_check_ins : List CheckInRow
  encouragements : List EncouragementRow
  next_user_id : Nat
  next_support_person_id : Nat
  next_sobriety_id : Nat
  next_reason_id : Nat
  next_sos_id : Nat
  next_journal_id : Nat
  next_intention_id : Nat
  next_check_in_id : Nat
deriving Repr, DecidableEq

/-- A freshly created store: every table empty, every sequence at 1. -/
def emptyStore : Store :=
  { users := [], support_persons := [], sobriety_data := [], user_reasons := []
    sos_logs := [], journal_entries := [], intentions := [], daily_check_ins := []
    encouragements := []
    next_user_id := 1, next_support_person_id := 1, next_sobriety_id := 1
    next_reason_id := 1, next_sos_id := 1, next_journal_id := 1
    next_intention_id := 1, next_check_in_id := 1 }

/-! Section: Generic list machinery: stable sort and `INSERT OR REPLACE` upserts -/

/-- Insert `a` into `l` in front of the first element `b` with `le a b`. -/
def insertByLe (le : α → α → Bool) (a : α) : List α → List α
  | [] => [a]
  | b :: bs => if le a b then a :: b :: bs else b :: insertByLe le a bs

/-- Insertion sort by the boolean relation `le` (models `ORDER BY`). -/
def sortByLe (le : α → α → Bool) (l : List α) : List α :=
  l.foldr (insertByLe le) []

/-- `INSERT OR REPLACE` of one row keyed by `key`: delete any row with the
same key, then append the new row. -/
def upsertRow (key : α → Nat) (l : List α) (r : α) : List α :=
  l.filter (fun x => decide (key x ≠ key r)) ++ [r]

/-- Replay a list of rows with `INSERT OR REPLACE` semantics, in order. -/
def upsertRows (key : α → Nat) (l : List α) (rs : List α) : List α :=
  rs.foldl (upsertRow key) l

/-- Drop every row whose key appears in `ks`. -/
def removeKeys (key : α → Nat) (ks : List Nat) (l : List α) : List α :=
  l.filter (fun x => decide (key x ∉ ks))

/-! Section: Read helpers over an open store

Each `...From` function is the `SELECT` body of the corresponding
`DatabaseService` read method, evaluated against an open store. -/

/-- `ORDER BY id DESC LIMIT 1`: the row with the greatest key. -/
def lastById (key : α → Nat) (l : List α) : Option α :=
  l.foldl (fun acc r =>
    match acc with
    | none => some r
    | some a => if key a ≤ key r then some r else some a) none

/-- `getUser`: `SELECT * FROM users ORDER BY id DESC LIMIT 1`. -/
def getUserFrom (s : Store) : Option UserRow :=
  lastById (fun r => r.id) s.users

/-- `getSupportPerson`: `SELECT * FROM support_persons ORDER BY id DESC LIMIT 1`. -/
def getSupportPersonFrom (s : Store) : Option SupportPersonRow :=
  lastById (fun r => r.id) s.support_persons

/-- `getSobrietyData`: `SELECT * FROM sobriety_data ORDER BY id DESC LIMIT 1`. -/
def getSobrietyDataFrom (s : Store) : Option SobrietyRow :=
  lastById (fun r => r.id) s.sobriety_data

/-- `getUserReasons`: `SELECT reason FROM user_reasons ORDER BY id`,
mapped to the bare reason strings. -/
def getUserReasonsFrom (s : Store) : List String :=
  (sortByLe (fun a b => decide (a.id ≤ b.id)) s.user_reasons).map (fun r => r.reason)

/-- `getJournalEntries`: `SELECT * FROM journal_entries ORDER BY timestamp DESC`. -/
def getJournalEntriesFrom (s : Store) : List JournalRow :=
  sortByLe (fun a b => decide (b.timestamp ≤ a.timestamp)) s.journal_entries

/-- `getIntentions`: `SELECT * FROM intentions ORDER BY timestamp DESC`. -/
def getIntentionsFrom (s : Store) : List IntentionRow :=
  sortByLe (fun a b => decide (b.timestamp ≤ a.timestamp)) s.intentions

/-- `getCurrentIntention`: `SELECT * FROM intentions ORDER BY timestamp DESC LIMIT 1`. -/
def getCurrentIntentionFrom (s : Store) : Option IntentionRow :=
  (getIntentionsFrom s).head?

/-- `getCheckInHistory`: `SELECT * FROM daily_check_ins ORDER BY date DESC LIMIT 30`. -/
def getCheckInHistoryFrom (s : Store) : List CheckInRow :=
  (sortByLe (fun a b => decide (b.date ≤ a.date)) s.daily_check_ins).take 30

/-- `getTodayCheckIn`: `SELECT * FROM daily_check_ins WHERE date = ?` (first row). -/
def getTodayCheckInFrom (s : Store) (today : String) : Option CheckInRow :=
  (s.daily_check_ins.filter (fun r => r.date == today)).head?

/-- Backed-up SOS log row: `getSOSLogs` selects only `id, timestamp`. -/
structure SosBackupRow where
  id : Nat
  timestamp : String
deriving Repr, DecidableEq

/-- `getSOSLogs`: `SELECT id, timestamp FROM sos_logs ORDER BY timestamp DESC LIMIT 50`. -/
def getSOSLogsFrom (s : Store) : List SosBackupRow :=
  ((sortByLe (fun a b => decide (b.timestamp ≤ a.timestamp)) s.sos_logs).take 50).map
    (fun r => { id := r.id, timestamp := r.timestamp })

/-- Result shape of `getEncouragementStats`. -/
structure EncouragementStats where
  total : Nat
  seen : Nat
  unseen : Nat
deriving Repr, DecidableEq

/-- `getEncouragementStats` body: total count, seen count, `unseen = total - seen`. -/
def getEncouragementStatsFrom (s : Store) : EncouragementStats :=
  let total := s.encouragements.length
  let seenCount := s.encouragements.countP (fun r => r.seen)
  { total := total, seen := seenCount, unseen := total - seenCount }

/-- `ORDER BY RANDOM() LIMIT 1`, with the engine's random draw made an
explicit `choice` parameter. -/
def pickRandom (l : List α) (choice : Nat) : Option α :=
  l.get? (choice % l.length)

/-! Section: Backup Serializer (`backupData`) -/

/-- The fixed AsyncStorage key of the snapshot. -/
def backupKey : String := "sober_balance_backup"

/-- The envelope `backupData` actually writes.  Note its shape: `user`,
`supportPerson` and `sobrietyData` are single objects or null,
`userReasons` is a list of bare strings (from `getUserReasons`), and
`sosLogs` rows carry only `id` and `timestamp` (from `getSOSLogs`).
There is no encouragement field. -/
structure BackupEnvelope where
  timestamp : String
  version : String
  user : Option UserRow
  supportPerson : Option SupportPersonRow
  sobrietyData : Option SobrietyRow
  userReasons : List String
  journalEntries : List JournalRow
  intentions : List IntentionRow
  dailyCheckIns : List CheckInRow
  sosLogs : List SosBackupRow
deriving Repr, DecidableEq

/-- `backupData`: read the current rows through the read methods and wrap
them in the `{ timestamp, version: '1.0.0', ...entities }` envelope. -/
def backupData (s : Store) (now : String) : BackupEnvelope :=
  { timestamp := now
    version := "1.0.0"
    user := getUserFrom s
    supportPerson := getSupportPersonFrom s
    sobrietyData := getSobrietyDataFrom s
    userReasons := getUserReasonsFrom s
    journalEntries := getJournalEntriesFrom s
    intentions := getIntentionsFrom s
    dailyCheckIns := getCheckInHistoryFrom s
    sosLogs := getSOSLogsFrom s }

/-- The key-value area, holding snapshot blobs by key. -/
def KVStore : Type := List (String × BackupEnvelope)

/-- `AsyncStorage.setItem`. -/
def kvSetItem (kv : KVStore) (k : String) (v : BackupEnvelope) : KVStore :=
  (k, v) :: kv.filter (fun p => p.1 != k)

/-- `AsyncStorage.getItem`. -/
def kvGetItem (kv : KVStore) (k : String) : Option BackupEnvelope :=
  (kv.find? (fun p => p.1 == k)).map (fun p => p.2)

/-- The write `backupData` performs: `AsyncStorage.setItem('sober_balance_backup', ...)`. -/
def backupDataWrite (s : Store) (now : String) (kv : KVStore) : KVStore :=
  kvSetItem kv backupKey (backupData s now)

/-! Section: Restore Coordinator (`restoreDataIfNeeded`) -/

/-- The dynamic shape of the `sobrietyData` field of a parsed snapshot:
absent/null, a single object, or an array.  `restoreDataIfNeeded` guards its
replay with `backup.sobrietyData && backup.sobrietyData.length > 0`, which in
JavaScript is false for a single object (its `length` is undefined). -/
inductive SobrietyField where
  | nullish
  | obj (r : SobrietyRow)
  | arr (rs : List SobrietyRow)
deriving Repr, DecidableEq

/-- A parsed snapshot as `restoreDataIfNeeded` consumes it (the documented
shape of §6: each entity field a single object, null, or an array of row
objects; a null/absent array field is identified with `[]`). -/
structure Snapshot where
  timestamp : Option String
  version : Option String
  user : Option UserRow
  supportPerson : Option SupportPersonRow
  sobrietyData : SobrietyField
  userReasons : List ReasonRow
  journalEntries : List JournalRow
  intentions : List IntentionRow
  dailyCheckIns : List CheckInRow
  sosLogs : List SosLogRow
deriving Repr, DecidableEq

/-- Field defaulting applied when replaying a sobriety row:
`data.tracking_mode || 'sober'`. -/
def restoreSobrietyRow (r : SobrietyRow) : SobrietyRow :=
  { r with tracking_mode := some (r.tracking_mode.getD "sober") }

/-- Field defaulting applied when replaying a journal row:
`entry.updated_at || entry.created_at`. -/
def restoreJournalRow (e : JournalRow) : JournalRow :=
  { e with updated_at := e.updated_at.orElse (fun _ => e.created_at) }

/-- Field defaulting applied when replaying an intention row:
`intention.updated_at || intention.created_at`. -/
def restoreIntentionRow (e : IntentionRow) : IntentionRow :=
  { e with updated_at := e.updated_at.orElse (fun _ => e.created_at) }

/-- The replay section of `restoreDataIfNeeded`: each collection present in
the snapshot is replayed with `INSERT OR REPLACE` keyed by the row's original
id, in the order user, supportPerson, sobrietyData, userReasons,
journalEntries, intentions, dailyCheckIns, sosLogs.  Each statement touches a
distinct table, so the sequence is a single simultaneous record update. -/
def replaySnapshot (s : Store) (b : Snapshot) : Store :=
  { s with
    users :=
      match b.user with
      | some u => upsertRow (fun r => r.id) s.users u
      | none => s.users
    support_persons :=
      match b.supportPerson with
      | some p => upsertRow (fun r => r.id) s.support_persons p
      | none => s.support_persons
    sobriety_data :=
      match b.sobrietyData with
      | .arr rs =>
          if rs.isEmpty then s.sobriety_data
          else upsertRows (fun r => r.id) s.sobriety_data (rs.map restoreSobrietyRow)
      | _ => s.sobriety_data
    user_reasons :=
      if b.userReasons.isEmpty then s.user_reasons
      else upsertRows (fun r => r.id) s.user_reasons b.userReasons
    journal_entries :=
      if b.journalEntries.isEmpty then s.journal_entries
      else upsertRows (fun r => r.id) s.journal_entries (b.journalEntries.map restoreJournalRow)
    intentions :=
      if b.intentions.isEmpty then s.intentions
      else upsertRows (fun r => r.id) s.intentions (b.intentions.map restoreIntentionRow)
    daily_check_ins :=
      if b.dailyCheckIns.isEmpty then s.daily_check_ins
      else upsertRows (fun r => r.id) s.daily_check_ins b.dailyCheckIns
    sos_logs :=
      if b.sosLogs.isEmpty then s.sos_logs
      else upsertRows (fun r => r.id) s.sos_logs b.sosLogs }

/-- The skip condition of `restoreDataIfNeeded`: `hasUserData && hasAnyContent`. -/
def restoreSkip (s : Store) : Bool :=
  decide (0 < s.users.length) &&
    (decide (0 < s.journal_entries.length) || decide (0 < s.intentions.length) ||
     decide (0 < s.daily_check_ins.length) || decide (0 < s.support_persons.length) ||
     decide (0 < s.sobriety_data.length))

/-- `restoreDataIfNeeded`: skip when the store already has a user row and some
content; otherwise read the snapshot (absence, like an unparseable blob, is a
silent no-op) and replay it.  The version and age checks of the source only
emit warnings and do not affect the state. -/
def restoreDataIfNeeded (s : Store) (k : Option Snapshot) : Store :=
  if restoreSkip s then s
  else
    match k with
    | none => s
    | some b => replaySnapshot s b

/-! Section: Record Store write methods

Each method is the source method's `try`/`catch` structure over an open
store, with the outcome of the underlying store mutation made explicit:
`fault = none` means the SQL statement(s) succeed, `fault = some e` means the
statement throws `e`.  A method that rethrows returns `Except.error`; a
method that swallows the failure returns its sentinel with the store
unchanged.  The best-effort backup trigger after a successful write touches
only the key-value area, never the tables, and its failure is always
swallowed, so it does not appear in the table-level state. -/

/-- `createUser`: plain insert, errors rethrown. -/
def createUser (s : Store) (name now : String) (fault : Option DBErr) :
    Except DBErr (Nat × Store) :=
  match fault with
  | some e => .error e
  | none =>
      .ok (s.next_user_id,
        { s with
          users := s.users ++
            [{ id := s.next_user_id, name := name, has_completed_onboarding := false
               setup_step := 0, created_at := some now, updated_at := some now }]
          next_user_id := s.next_user_id + 1 })

/-- `updateUserOnboarding`: update of the most recent user row, errors rethrown. -/
def updateUserOnboarding (s : Store) (hasCompleted : Bool) (setupStep : Nat)
    (now : String) (fault : Option DBErr) : Except DBErr Store :=
  match fault with
  | some e => .error e
  | none =>
      let target := (getUserFrom s).map (fun r => r.id)
      .ok { s with
        users := s.users.map (fun r =>
          if some r.id = target then
            { r with has_completed_onboarding := hasCompleted, setup_step := setupStep
                     updated_at := some now }
          else r) }

/-- `updateUserName`: update of the most recent user row, errors rethrown. -/
def updateUserName (s : Store) (name now : String) (fault : Option DBErr) :
    Except DBErr Store :=
  match fault with
  | some e => .error e
  | none =>
      let target := (getUserFrom s).map (fun r => r.id)
      .ok { s with
        users := s.users.map (fun r =>
          if some r.id = target then { r with name := name, updated_at := some now }
          else r) }

/-- `saveSupportPerson` over an open store: `DELETE FROM support_persons`
then insert the one new row; errors rethrown. -/
def saveSupportPerson (s : Store) (name phone now : String) (fault : Option DBErr) :
    Except DBErr (Nat × Store) :=
  match fault with
  | some e => .error e
  | none =>
      .ok (s.next_support_person_id,
        { s with
          support_persons :=
            [{ id := s.next_support_person_id, name := name, phone := phone
               created_at := some now, updated_at := some now }]
          next_support_person_id := s.next_support_person_id + 1 })

/-- `saveSobrietyData`: delete-all-then-insert-one; errors rethrown. -/
def saveSobrietyData (s : Store) (trackingSobriety : Bool) (trackingMode : String)
    (soberDate : Option String) (now : String) (fault : Option DBErr) :
    Except DBErr (Nat × Store) :=
  match fault with
  | some e => .error e
  | none =>
      .ok (s.next_sobriety_id,
        { s with
          sobriety_data :=
            [{ id := s.next_sobriety_id, tracking_sobriety := trackingSobriety
               tracking_mode := some trackingMode, sober_date := soberDate
               created_at := some now, updated_at := some now }]
          next_sobriety_id := s.next_sobriety_id + 1 })

/-- `saveUserReasons`: delete-all then insert each reason; errors rethrown. -/
def saveUserReasons (s : Store) (reasons : List String) (now : String)
    (fault : Option DBErr) : Except DBErr Store :=
  match fault with
  | some e => .error e
  | none =>
      .ok { s with
        user_reasons := reasons.enum.map (fun p =>
          { id := s.next_reason_id + p.1, reason := p.2, created_at := some now })
        next_reason_id := s.next_reason_id + reasons.length }

/-- `logSOSActivation`: on any failure the error is swallowed and the
sentinel `0` returned (SOS logging must never block the SOS screen). -/
def logSOSActivation (s : Store) (timestamp now : String) (fault : Option DBErr) :
    Nat × Store :=
  match fault with
  | some _ => (0, s)
  | none =>
      (s.next_sos_id,
        { s with
          sos_logs := s.sos_logs ++
            [{ id := s.next_sos_id, timestamp := timestamp, created_at := some now }]
          next_sos_id := s.next_sos_id + 1 })

/-- `createJournalEntry`: on failure the error is swallowed and the sentinel
`0` returned (`catch ... return 0`). -/
def createJournalEntry (s : Store) (content now : String) (fault : Option DBErr) :
    Nat × Store :=
  match fault with
  | some _ => (0, s)
  | none =>
      (s.next_journal_id,
        { s with
          journal_entries := s.journal_entries ++
            [{ id := s.next_journal_id, content := content, timestamp := now
               created_at := some now, updated_at := some now }]
          next_journal_id := s.next_journal_id + 1 })

/-- `updateJournalEntry`: first try the update with `updated_at`; on failure
retry without it; only when the fallback also fails is the fallback error
rethrown. -/
def updateJournalEntry (s : Store) (id : Nat) (content now : String)
    (fault fallbackFault : Option DBErr) : Except DBErr Store :=
  match fault with
  | none =>
      .ok { s with
        journal_entries := s.journal_entries.map (fun r =>
          if r.id = id then { r with content := content, updated_at := some now } else r) }
  | some _ =>
      match fallbackFault with
      | none =>
          .ok { s with
            journal_entries := s.journal_entries.map (fun r =>
              if r.id = id then { r with content := content } else r) }
      | some e2 => .error e2

/-- `deleteJournalEntry`: errors rethrown. -/
def deleteJournalEntry (s : Store) (id : Nat) (fault : Option DBErr) :
    Except DBErr Store :=
  match fault with
  | some e => .error e
  | none => .ok { s with journal_entries := s.journal_entries.filter (fun r => r.id != id) }

/-- `createIntention`: on failure the error is swallowed and the sentinel `0`
returned. -/
def createIntention (s : Store) (content now : String) (fault : Option DBErr) :
    Nat × Store :=
  match fault with
  | some _ => (0, s)
  | none =>
      (s.next_intention_id,
        { s with
          intentions := s.intentions ++
            [{ id := s.next_intention_id, content := content, timestamp := now
               created_at := some now, updated_at := some now }]
          next_intention_id := s.next_intention_id + 1 })

/-- `updateIntention`: same two-stage fallback as `updateJournalEntry`. -/
def updateIntention (s : Store) (id : Nat) (content now : String)
    (fault fallbackFault : Option DBErr) : Except DBErr Store :=
  match fault with
  | none =>
      .ok { s with
        intentions := s.intentions.map (fun r =>
          if r.id = id then { r with content := content, updated_at := some now } else r) }
  | some _ =>
      match fallbackFault with
      | none =>
          .ok { s with
            intentions := s.intentions.map (fun r =>
              if r.id = id then { r with content := content } else r) }
      | some e2 => .error e2

/-- `deleteIntention`: errors rethrown. -/
def deleteIntention (s : Store) (id : Nat) (fault : Option DBErr) :
    Except DBErr Store :=
  match fault with
  | some e => .error e
  | none => .ok { s with intentions := s.intentions.filter (fun r => r.id != id) }

/-- `createDailyCheckIn`: a plain `INSERT` whose `date` column carries a
`UNIQUE` constraint; a constraint violation (or any other failure) is caught
and the sentinel `0` returned. -/
def createDailyCheckIn (s : Store) (goal energy tone thankful today now : String)
    (fault : Option DBErr) : Nat × Store :=
  match fault with
  | some _ => (0, s)
  | none =>
      if s.daily_check_ins.any (fun r => r.date == today) then (0, s)
      else
        (s.next_check_in_id,
          { s with
            daily_check_ins := s.daily_check_ins ++
              [{ id := s.next_check_in_id, goal := goal, energy := energy, tone := tone
                 thankful := thankful, date := today, created_at := some now }]
            next_check_in_id := s.next_check_in_id + 1 })

/-- `clearTodayCheckIn` (debug helper): failures are logged and swallowed,
with no sentinel. -/
def clearTodayCheckIn (s : Store) (today : String) (fault : Option DBErr) : Store :=
  match fault with
  | some _ => s
  | none => { s with daily_check_ins := s.daily_check_ins.filter (fun r => r.date != today) }

/-- `clearAllData`: delete every row of the eight user-content tables, then
`UPDATE encouragements SET seen = 0`. -/
def clearAllData (s : Store) : Store :=
  { s with
    users := [], support_persons := [], sobriety_data := [], user_reasons := []
    sos_logs := [], journal_entries := [], intentions := [], daily_check_ins := []
    encouragements := s.encouragements.map (fun r => { r with seen := false }) }

/-- `clearUserData`: delete every row of the eight user-content tables, then
reset the encouragements to unseen (the seeded messages are preserved). -/
def clearUserData (s : Store) : Store :=
  { s with
    users := [], support_persons := [], sobriety_data := [], user_reasons := []
    sos_logs := [], journal_entries := [], intentions := [], daily_check_ins := []
    encouragements := s.encouragements.map (fun r => { r with seen := false }) }

/-! Section: Retry Wrapper (`retryOperation`) -/

/-- Default `maxRetries` of `retryOperation`. -/
def retryDefaultMaxAttempts : Nat := 3

/-- Default `delayMs` of `retryOperation`. -/
def retryDefaultDelayMs : Nat := 1000

/-- The `for` loop of `retryOperation`.  `op attempt` is the outcome of the
wrapped operation on its `attempt`-th invocation.  The result is the returned
value (`.error none` is the unreachable `'Retry mechanism failed
unexpectedly'` exit, `.error (some e)` the rethrown final error), the number
of the attempt on which the loop stopped, and the list of back-off waits
performed (one `delayMs * attempt` wait after each failed non-final attempt).
The structural `fuel` argument counts the loop iterations still allowed and
is started at `maxRetries`, which the loop never exhausts when
`maxRetries ≥ 1`. -/
def retryLoop (op : Nat → Except ε α) (delayMs maxRetries : Nat) :
    Nat → Nat → Except (Option ε) α × Nat × List Nat
  | attempt, 0 => (.error none, attempt - 1, [])
  | attempt, fuel + 1 =>
      if maxRetries < attempt then (.error none, attempt - 1, [])
      else
        match op attempt with
        | .ok a => (.ok a, attempt, [])
        | .error e =>
            if attempt = maxRetries then (.error (some e), attempt, [])
            else
              let r := retryLoop op delayMs maxRetries (attempt + 1) fuel
              (r.1, r.2.1, delayMs * attempt :: r.2.2)

/-- `retryOperation(operation, maxRetries, delayMs)`: run the loop from
attempt 1. -/
def retryOperation (op : Nat → Except ε α) (maxRetries delayMs : Nat) :
    Except (Option ε) α × Nat × List Nat :=
  retryLoop op delayMs maxRetries 1 maxRetries

/-! Section: Calendar-day sobriety count (`calculateSobrietyDaysByDate`) -/

/-- A local wall-clock instant: the index of its local calendar day and the
milliseconds elapsed since that day's local midnight. -/
structure LocalDateTime where
  day : Int
  msOfDay : Nat
deriving Repr, DecidableEq

/-- `1000 * 3600 * 24`. -/
def msPerDay : Int := 1000 * 3600 * 24

/-- `Date.prototype.getTime` of a local instant. -/
def dateGetTime (t : LocalDateTime) : Int :=
  t.day * msPerDay + t.msOfDay

/-- `new Date(t.getFullYear(), t.getMonth(), t.getDate())`: reset the time to
the start of the day (midnight). -/
def startOfDay (t : LocalDateTime) : LocalDateTime :=
  { day := t.day, msOfDay := 0 }

/-- `calculateSobrietyDaysByDate`: midnight-normalise both instants, then
`Math.floor` of the millisecond difference divided by a day. -/
def calculateSobrietyDaysByDate (soberDate now : LocalDateTime) : Int :=
  Int.fdiv (dateGetTime (startOfDay now) - dateGetTime (startOfDay soberDate)) msPerDay

/-! Section: Lazily-initializing read methods

Each read method takes the connection handle (`db : Option Store`, `none`
when the store was never opened) and, where the source lazily initializes,
the outcome `initResult` that `this.init()` would produce.  The two reads
that guard with `if (!this.db) throw new Error('Database not initialized')`
instead of initializing are transcribed as such. -/

/-- `getUser`: lazily initializes; returns null when init fails. -/
def getUser (db : Option Store) (initResult : Except DBErr Store) : Option UserRow :=
  match db with
  | some s => getUserFrom s
  | none =>
      match initResult with
      | .error _ => none
      | .ok s => getUserFrom s

/-- `getSupportPerson`: lazily initializes; returns null when init fails. -/
def getSupportPerson (db : Option Store) (initResult : Except DBErr Store) :
    Option SupportPersonRow :=
  match db with
  | some s => getSupportPersonFrom s
  | none =>
      match initResult with
      | .error _ => none
      | .ok s => getSupportPersonFrom s

/-- `getSobrietyData`: lazily initializes; returns null when init fails. -/
def getSobrietyData (db : Option Store) (initResult : Except DBErr Store) :
    Option SobrietyRow :=
  match db with
  | some s => getSobrietyDataFrom s
  | none =>
      match initResult with
      | .error _ => none
      | .ok s => getSobrietyDataFrom s

/-- `getJournalEntries`: lazily initializes; returns `[]` when init fails. -/
def getJournalEntries (db : Option Store) (initResult : Except DBErr Store) :
    List JournalRow :=
  match db with
  | some s => getJournalEntriesFrom s
  | none =>
      match initResult with
      | .error _ => []
      | .ok s => getJournalEntriesFrom s

/-- `getJournalEntry`: lazily initializes; returns null when init fails. -/
def getJournalEntry (db : Option Store) (initResult : Except DBErr Store) (id : Nat) :
    Option JournalRow :=
  match db with
  | some s => (s.journal_entries.filter (fun r => r.id == id)).head?
  | none =>
      match initResult with
      | .error _ => none
      | .ok s => (s.journal_entries.filter (fun r => r.id == id)).head?

/-- `getIntentions`: lazily initializes; returns `[]` when init fails. -/
def getIntentions (db : Option Store) (initResult : Except DBErr Store) :
    List IntentionRow :=
  match db with
  | some s => getIntentionsFrom s
  | none =>
      match initResult with
      | .error _ => []
      | .ok s => getIntentionsFrom s

/-- `getCurrentIntention`: lazily initializes; returns null when init fails. -/
def getCurrentIntention (db : Option Store) (initResult : Except DBErr Store) :
    Option IntentionRow :=
  match db with
  | some s => getCurrentIntentionFrom s
  | none =>
      match initResult with
      | .error _ => none
      | .ok s => getCurrentIntentionFrom s

/-- `getTodayCheckIn`: lazily initializes; returns null when init fails. -/
def getTodayCheckIn (db : Option Store) (initResult : Except DBErr Store)
    (today : String) : Option CheckInRow :=
  match db with
  | some s => getTodayCheckInFrom s today
  | none =>
      match initResult with
      | .error _ => none
      | .ok s => getTodayCheckInFrom s today

/-- `getCheckInHistory`: lazily initializes; returns `[]` when init fails. -/
def getCheckInHistory (db : Option Store) (initResult : Except DBErr Store) :
    List CheckInRow :=
  match db with
  | some s => getCheckInHistoryFrom s
  | none =>
      match initResult with
      | .error _ => []
      | .ok s => getCheckInHistoryFrom s

/-- `getSOSLogs`: lazily initializes; returns `[]` when init fails. -/
def getSOSLogs (db : Option Store) (initResult : Except DBErr Store) :
    List SosBackupRow :=
  match db with
  | some s => getSOSLogsFrom s
  | none =>
      match initResult with
      | .error _ => []
      | .ok s => getSOSLogsFrom s

/-- `getRandomEncouragement`: lazily initializes; returns null when init
fails.  The engine's random draw is the `choice` parameter. -/
def getRandomEncouragement (db : Option Store) (initResult : Except DBErr Store)
    (choice : Nat) : Option EncouragementRow :=
  match db with
  | some s => pickRandom s.encouragements choice
  | none =>
      match initResult with
      | .error _ => none
      | .ok s => pickRandom s.encouragements choice

/-- `getRandomUnseenEncouragement`: lazily initializes; returns null when
init fails. -/
def getRandomUnseenEncouragement (db : Option Store) (initResult : Except DBErr Store)
    (choice : Nat) : Option EncouragementRow :=
  match db with
  | some s => pickRandom (s.encouragements.filter (fun r => !r.seen)) choice
  | none =>
      match initResult with
      | .error _ => none
      | .ok s => pickRandom (s.encouragements.filter (fun r => !r.seen)) choice

/-- `getUserReasons`: `if (!this.db) throw new Error('Database not
initialized')` — no lazy initialization. -/
def getUserReasons (db : Option Store) : Except DBErr (List String) :=
  match db with
  | none => .error .notInitialized
  | some s => .ok (getUserReasonsFrom s)

/-- `getEncouragementStats`: `if (!this.db) throw new Error('Database not
initialized')` — no lazy initialization. -/
def getEncouragementStats (db : Option Store) : Except DBErr EncouragementStats :=
  match db with
  | none => .error .notInitialized
  | some s => .ok (getEncouragementStatsFrom s)

/-- A transiently failing operation: fails on attempt 1, succeeds on
attempt 2. -/
def retryDemoOp : Nat → Except Nat Nat := fun k => if k = 2 then .ok 37 else .error k

/-! Section: Concrete demonstration data used by counterexamples and witnesses -/

/-- A concrete user row. -/
def userDemo : UserRow :=
  { id := 1, name := "Alex", has_completed_onboarding := true, setup_step := 2
    created_at := some "2024-01-01", updated_at := some "2024-01-02" }

/-- A concrete sobriety row, as `backupData` would put it in a snapshot:
a single object, not an array. -/
def sobrietyDemo : SobrietyRow :=
  { id := 1, tracking_sobriety := true, tracking_mode := some "sober"
    sober_date := some "2024-01-01", created_at := some "2024-01-01"
    updated_at := some "2024-01-01" }

/-- A snapshot of the documented shape whose `sobrietyData` field is a single
non-null object (exactly what `backupData` writes for it). -/
def snapshotWithObjectSobriety : Snapshot :=
  { timestamp := some "2024-02-01T00:00:00.000Z", version := some "1.0.0"
    user := some userDemo, supportPerson := none
    sobrietyData := .obj sobrietyDemo
    userReasons := [], journalEntries := [], intentions := []
    dailyCheckIns := [], sosLogs := [] }

/-- A concrete check-in row with the given index as id and date. -/
def checkInDemo (i : Nat) : CheckInRow :=
  { id := i + 1, goal := "g", energy := "low", tone := "calm", thankful := "t"
    date := toString i, created_at := none }

/-- A concrete SOS log row with the given index as id and timestamp. -/
def sosDemo (i : Nat) : SosLogRow :=
  { id := i + 1, timestamp := toString i, created_at := none }

/-- A store holding 31 daily check-ins and 51 SOS logs. -/
def storeWithLongHistory : Store :=
  { emptyStore with
    daily_check_ins := (List.range 31).map checkInDemo
    sos_logs := (List.range 51).map sosDemo
    next_check_in_id := 32, next_sos_id := 52 }

/-! Section: call-sequence drivers and further demonstration data -/

/-- Inputs of one `createDailyCheckIn` call. -/
structure CheckInInput where
  goal : String
  energy : String
  tone : String
  thankful : String
deriving Repr, DecidableEq

/-- A sequence of `createDailyCheckIn` calls on the same calendar date,
collecting each call's returned id. -/
def runCheckInSeq (s : Store) (today now : String) :
    List CheckInInput → List Nat × Store
  | [] => ([], s)
  | a :: rest =>
      let r := createDailyCheckIn s a.goal a.energy a.tone a.thankful today now none
      let q := runCheckInSeq r.2 today now rest
      (r.1 :: q.1, q.2)

/-- A concrete encouragement row whose `seen` flag is set. -/
def encouragementDemo : EncouragementRow :=
  { id := 1, message := "keep going", seen := true
    created_at := none, updated_at := none }

/-- A store whose encouragement catalog has a row with `seen = 1`. -/
def storeWithSeenEncouragement : Store :=
  { emptyStore with encouragements := [encouragementDemo] }

/-- A sequence of `saveSupportPerson` calls applied in order. -/
def runSupportSaves (s : Store) (now : String) :
    List (String × String) → Store
  | [] => s
  | a :: rest =>
      match saveSupportPerson s a.1 a.2 now none with
      | .ok r => runSupportSaves r.2 now rest
      | .error _ => runSupportSaves s now rest

/-! Section: lemmas and claim theorems -/

theorem insertByLe_length (le : α → α → Bool) (a : α) (l : List α) :
    (insertByLe le a l).length = l.length + 1 := by
  induction l with
  | nil => rfl
  | cons b bs ih =>
    simp only [insertByLe]
    by_cases h : le a b = true
    · simp [h]
    · simp [h, ih]

theorem sortByLe_length (le : α → α → Bool) (l : List α) :
    (sortByLe le l).length = l.length := by
  induction l with
  | nil => rfl
  | cons a l ih =>
    simp only [sortByLe, List.foldr_cons] at ih ⊢
    rw [insertByLe_length, ih, List.length_cons]

theorem upsertRows_cons (key : α → Nat) (l : List α) (r : α) (rs : List α) :
    upsertRows key l (r :: rs) = upsertRows key (upsertRow key l r) rs := rfl

theorem removeKeys_nil (key : α → Nat) (l : List α) :
    removeKeys key [] l = l := by
  simp [removeKeys]

theorem removeKeys_append (key : α → Nat) (ks : List Nat) (l₁ l₂ : List α) :
    removeKeys key ks (l₁ ++ l₂) = removeKeys key ks l₁ ++ removeKeys key ks l₂ := by
  simp [removeKeys, List.filter_append]

theorem removeKeys_removeKeys (key : α → Nat) (ks : List Nat) (l : List α) :
    removeKeys key ks (removeKeys key ks l) = removeKeys key ks l := by
  simp [removeKeys, List.filter_filter]

theorem removeKeys_eq_nil (key : α → Nat) (ks : List Nat) (l : List α)
    (h : ∀ x ∈ l, key x ∈ ks) : removeKeys key ks l = [] := by
  simp only [removeKeys, List.filter_eq_nil_iff]
  intro x hx
  simp [h x hx]

theorem mem_upsertRows (key : α → Nat) (l rs : List α) (x : α)
    (hx : x ∈ upsertRows key l rs) : x ∈ l ∨ x ∈ rs := by
  induction rs generalizing l with
  | nil => exact Or.inl hx
  | cons r rs ih =>
    rw [upsertRows_cons] at hx
    rcases ih _ hx with h | h
    · simp only [upsertRow, List.mem_append, List.mem_filter, List.mem_singleton] at h
      rcases h with ⟨h, _⟩ | h
      · exact Or.inl h
      · exact Or.inr (by simp [h])
    · exact Or.inr (List.mem_cons_of_mem _ h)

theorem removeKeys_upsertRow (key : α → Nat) (ks : List Nat) (l : List α) (r : α) :
    removeKeys key ks (upsertRow key l r) =
      removeKeys key (key r :: ks) l ++ removeKeys key ks [r] := by
  simp only [upsertRow, removeKeys, List.filter_append, List.filter_filter]
  congr 1
  apply List.filter_congr
  intro x _
  by_cases h1 : key x = key r <;> by_cases h2 : key x ∈ ks <;> simp [h1, h2]

theorem upsertRows_eq_append (key : α → Nat) (rs : List α) :
    ∀ l, upsertRows key l rs = removeKeys key (rs.map key) l ++ upsertRows key [] rs := by
  induction rs with
  | nil => intro l; simp [upsertRows, removeKeys_nil]
  | cons r rs ih =>
    intro l
    rw [upsertRows_cons, ih (upsertRow key l r), removeKeys_upsertRow]
    have hnil : upsertRows key [] (r :: rs) = upsertRows key [r] rs := by
      rw [upsertRows_cons]; rfl
    rw [hnil, ih [r]]
    simp [List.append_assoc]

theorem key_mem_of_mem_upsertRows_nil (key : α → Nat) (rs : List α) (x : α)
    (hx : x ∈ upsertRows key [] rs) : key x ∈ rs.map key := by
  rcases mem_upsertRows key [] rs x hx with h | h
  · simp at h
  · exact List.mem_map_of_mem key h

/-- `INSERT OR REPLACE` replay is idempotent: replaying the same list of rows a
second time does not change the table. -/
theorem upsertRows_idem (key : α → Nat) (l rs : List α) :
    upsertRows key (upsertRows key l rs) rs = upsertRows key l rs := by
  rw [upsertRows_eq_append key rs l, upsertRows_eq_append key rs]
  rw [removeKeys_append, removeKeys_removeKeys]
  rw [removeKeys_eq_nil key (rs.map key) (upsertRows key [] rs)
    (fun x hx => key_mem_of_mem_upsertRows_nil key rs x hx)]
  simp

/-- Single-row upsert is idempotent. -/
theorem upsertRow_idem (key : α → Nat) (l : List α) (r : α) :
    upsertRow key (upsertRow key l r) r = upsertRow key l r := by
  have h := upsertRows_idem key l [r]
  simp only [upsertRows, List.foldl_cons, List.foldl_nil] at h
  exact h

/-- The attempt on which the loop stops never exceeds `maxRetries`. -/
theorem retryLoop_stops_le (op : Nat → Except ε α) (d m : Nat) :
    ∀ (fuel attempt : Nat), attempt ≤ m + 1 →
      (retryLoop op d m attempt fuel).2.1 ≤ m := by
  intro fuel
  induction fuel with
  | zero =>
      intro attempt h
      simp only [retryLoop]
      omega
  | succ fuel ih =>
      intro attempt h
      simp only [retryLoop]
      by_cases h1 : m < attempt
      · simp only [h1, if_true]
        omega
      · simp only [h1, if_false]
        cases hop : op attempt with
        | ok a => simp; omega
        | error e =>
            by_cases h2 : attempt = m
            · simp [h2]
            · simp only [h2, if_false]
              exact ih (attempt + 1) (by omega)

/-- If every attempt before `k` fails and attempt `k` succeeds, the loop
returns attempt `k`'s value at attempt `k`, having waited
`d * j` after each failed attempt `j < k`. -/
theorem retryLoop_first_success (op : Nat → Except ε α) (d m k : Nat) (a : α)
    (hk : k ≤ m) (hop : op k = .ok a) :
    ∀ (fuel attempt : Nat), attempt ≤ k → k - attempt < fuel →
      (∀ j, attempt ≤ j → j < k → (op j).isOk = false) →
      retryLoop op d m attempt fuel
        = (.ok a, k, (List.range' attempt (k - attempt)).map (fun j => d * j)) := by
  intro fuel
  induction fuel with
  | zero => intro attempt h1 h2 _; omega
  | succ fuel ih =>
      intro attempt h1 h2 hfail
      simp only [retryLoop]
      have hma : ¬ m < attempt := by omega
      simp only [hma, if_false]
      by_cases heq : attempt = k
      · subst heq
        rw [hop]
        simp
      · have hlt : attempt < k := by omega
        have hne : (op attempt).isOk = false := hfail attempt le_rfl hlt
        cases hop2 : op attempt with
        | ok b =>
            rw [hop2] at hne
            simp [Except.isOk, Except.toBool] at hne
        | error e =>
            dsimp only
            have hnem : ¬ attempt = m := by omega
            simp only [hnem, if_false]
            rw [ih (attempt + 1) (by omega) (by omega)
              (fun j hj1 hj2 => hfail j (by omega) hj2)]
            have hk' : k - attempt = (k - (attempt + 1)) + 1 := by omega
            rw [hk', List.range'_succ]
            simp

/-- If every attempt up to `maxRetries` fails, the loop stops at attempt
`maxRetries` and rethrows that final attempt's error, having waited after
every failed attempt but the last. -/
theorem retryLoop_all_fail (op : Nat → Except ε α) (d m : Nat) (e : ε)
    (hm : op m = .error e) :
    ∀ (fuel attempt : Nat), attempt ≤ m → m - attempt < fuel →
      (∀ j, attempt ≤ j → j ≤ m → (op j).isOk = false) →
      retryLoop op d m attempt fuel
        = (.error (some e), m, (List.range' attempt (m - attempt)).map (fun j => d * j)) := by
  intro fuel
  induction fuel with
  | zero => intro attempt h1 h2 _; omega
  | succ fuel ih =>
      intro attempt h1 h2 hfail
      simp only [retryLoop]
      have hma : ¬ m < attempt := by omega
      simp only [hma, if_false]
      by_cases heq : attempt = m
      · subst heq
        rw [hm]
        simp
      · have hlt : attempt < m := by omega
        have hne : (op attempt).isOk = false := hfail attempt le_rfl (by omega)
        cases hop2 : op attempt with
        | ok b =>
            rw [hop2] at hne
            simp [Except.isOk, Except.toBool] at hne
        | error e2 =>
            dsimp only
            simp only [heq, if_false]
            rw [ih (attempt + 1) (by omega) (by omega)
              (fun j hj1 hj2 => hfail j (by omega) hj2)]
            have hm' : m - attempt = (m - (attempt + 1)) + 1 := by omega
            rw [hm', List.range'_succ]
            simp

/-- Claim C9 (confirmed):  The retry wrapper invokes the wrapped operation at
most `maxRetries` times (the stopping attempt never exceeds it, default 3):
the first successful attempt's value is returned with no further attempts,
each failed non-final attempt `j` is followed by a `delayMs * j` wait, and
when every attempt fails the final attempt's error is rethrown. -/
theorem retryOperation_spec (op : Nat → Except ε α) (m d : Nat) :
    (retryOperation op m d).2.1 ≤ m ∧
      (∀ k a, 1 ≤ k → k ≤ m → op k = .ok a →
        (∀ j, 1 ≤ j → j < k → (op j).isOk = false) →
        retryOperation op m d
          = (.ok a, k, (List.range' 1 (k - 1)).map (fun j => d * j))) ∧
      (∀ e, 1 ≤ m → op m = .error e →
        (∀ j, 1 ≤ j → j ≤ m → (op j).isOk = false) →
        retryOperation op m d
          = (.error (some e), m, (List.range' 1 (m - 1)).map (fun j => d * j))) ∧
      retryDefaultMaxAttempts = 3 ∧ retryDefaultDelayMs = 1000 := by
  refine ⟨retryLoop_stops_le op d m m 1 (by omega), ?_, ?_, rfl, rfl⟩
  · intro k a h1 h2 hop hfail
    exact retryLoop_first_success op d m k a h2 hop m 1 h1 (by omega) hfail
  · intro e hm1 hm hfail
    exact retryLoop_all_fail op d m e hm m 1 hm1 (by omega) hfail

/-- Witness for C9: on the transiently failing demo operation with the
default 3 attempts, the wrapper stops on attempt 2 with the successful
value after a single `100 * 1` wait. -/
theorem retryOperation_spec_witness :
    (retryOperation retryDemoOp 3 100).2.1 ≤ 3 ∧
      retryOperation retryDemoOp 3 100
        = (.ok 37, 2, (List.range' 1 (2 - 1)).map (fun j => 100 * j)) :=
  ⟨(retryOperation_spec retryDemoOp 3 100).1,
    (retryOperation_spec retryDemoOp 3 100).2.1 2 37 (by omega) (by omega) rfl
      (by
        intro j h1 h2
        have hj : j = 1 := by omega
        subst hj
        rfl)⟩

/-- Claim C1 (code bug):  Evaluation of `backupData` at the failing input: a
store holding 31 daily check-ins and 51 SOS logs.  The snapshot written
under the fixed key `'sober_balance_backup'` carries the version tag
`"1.0.0"` and the current user, but holds only the 30 most recent check-ins
(`getCheckInHistory`, `LIMIT 30`) and the 50 most recent SOS logs
(`getSOSLogs`, `LIMIT 50`) — not *all* of them, contradicting the "backup
all user data" purpose.  The snapshot also never depends on the
encouragements table (the catalog is excluded). -/
theorem backupData_truncates_history :
    storeWithLongHistory.daily_check_ins.length = 31 ∧
      (backupData storeWithLongHistory "2024-04-01").dailyCheckIns.length = 30 ∧
      storeWithLongHistory.sos_logs.length = 51 ∧
      (backupData storeWithLongHistory "2024-04-01").sosLogs.length = 50 ∧
      kvGetItem (backupDataWrite storeWithLongHistory "2024-04-01" []) backupKey
        = some (backupData storeWithLongHistory "2024-04-01") ∧
      (backupData storeWithLongHistory "2024-04-01").version = "1.0.0" ∧
      (backupData storeWithLongHistory "2024-04-01").user
        = getUserFrom storeWithLongHistory ∧
      ∀ enc : List EncouragementRow,
        backupData { storeWithLongHistory with encouragements := enc } "2024-04-01"
          = backupData storeWithLongHistory "2024-04-01" := by
  refine ⟨?_, ?_, ?_, ?_, ?_, rfl, rfl, fun enc => rfl⟩
  · simp [storeWithLongHistory]
  · simp [backupData, getCheckInHistoryFrom, sortByLe_length, storeWithLongHistory]
  · simp [storeWithLongHistory]
  · simp [backupData, getSOSLogsFrom, sortByLe_length, storeWithLongHistory]
  · rfl

/-- Claim C8 (confirmed):  `calculateSobrietyDaysByDate` computes elapsed days
by midnight-normalised calendar-day subtraction: for every `soberDate` and
`now` the result is exactly the difference of their calendar-day indices
(the number of day boundaries between them), and in particular starting
yesterday at 23:59 and asking today at 00:01 yields 1, not 0. -/
theorem calculateSobrietyDaysByDate_counts_calendar_days :
    (∀ soberDate now : LocalDateTime,
        calculateSobrietyDaysByDate soberDate now = now.day - soberDate.day) ∧
    calculateSobrietyDaysByDate ⟨738886, 86340000⟩ ⟨738887, 60000⟩ = 1 := by
  constructor
  · intro soberDate now
    have hms : msPerDay ≠ 0 := by decide
    calc calculateSobrietyDaysByDate soberDate now
        = Int.fdiv ((now.day - soberDate.day) * msPerDay) msPerDay := by
          simp [calculateSobrietyDaysByDate, dateGetTime, startOfDay]
          ring_nf
      _ = now.day - soberDate.day := Int.mul_fdiv_cancel _ hms
  · decide

/-- Claim C10 (confirmed):  `clearUserData` and `clearAllData` are identical as
functions on store state: both delete every row of the eight user-content
tables and both reset every encouragement row's `seen` flag to `0`, so a
`seen` flag set before `clearUserData` never survives it. -/
theorem clearUserData_eq_clearAllData :
    ∀ s : Store, clearUserData s = clearAllData s ∧
      ∀ r ∈ (clearUserData s).encouragements, r.seen = false := by
  intro s
  refine ⟨rfl, ?_⟩
  intro r hr
  simp only [clearUserData, List.mem_map] at hr
  obtain ⟨a, -, rfl⟩ := hr
  rfl

/-- Claim C2 (code bug):  Evaluation of the restore at the failing input: a
snapshot whose `sobrietyData` is a single non-null object — the shape
`backupData` itself writes — restored into an empty store.  The user row is
replayed but the sobriety row is silently dropped, because the code guards
the replay with `backup.sobrietyData.length > 0`, which is false for an
object (`length` is `undefined`). -/
theorem restoreDataIfNeeded_drops_object_sobriety_data :
    (restoreDataIfNeeded emptyStore (some snapshotWithObjectSobriety)).sobriety_data
        = [] ∧
      (restoreDataIfNeeded emptyStore (some snapshotWithObjectSobriety)).users
        = [userDemo] := by
  constructor <;> rfl

/-- Replaying the same snapshot a second time does not change the store:
every collection is replayed with `INSERT OR REPLACE` keyed by the row's
original id. -/
theorem replaySnapshot_idem (s : Store) (b : Snapshot) :
    replaySnapshot (replaySnapshot s b) b = replaySnapshot s b := by
  unfold replaySnapshot
  congr 1
  · cases b.user with
    | none => rfl
    | some u => simp [upsertRow_idem]
  · cases b.supportPerson with
    | none => rfl
    | some p => simp [upsertRow_idem]
  · cases b.sobrietyData with
    | nullish => rfl
    | obj r => rfl
    | arr rs =>
        by_cases h : rs.isEmpty <;> simp [h, upsertRows_idem]
  · by_cases h : b.userReasons.isEmpty <;> simp [h, upsertRows_idem]
  · by_cases h : b.sosLogs.isEmpty <;> simp [h, upsertRows_idem]
  · by_cases h : b.journalEntries.isEmpty <;> simp [h, upsertRows_idem]
  · by_cases h : b.intentions.isEmpty <;> simp [h, upsertRows_idem]
  · by_cases h : b.dailyCheckIns.isEmpty <;> simp [h, upsertRows_idem]

/-- Claim C5 (confirmed):  Restore replay is idempotent: for every store and
every (optional) snapshot, running `restoreDataIfNeeded` a second time
against the store produced by the first run yields exactly the state of
running it once — no duplicated rows, no changed rows. -/
theorem restoreDataIfNeeded_idem (s : Store) (k : Option Snapshot) :
    restoreDataIfNeeded (restoreDataIfNeeded s k) k = restoreDataIfNeeded s k := by
  unfold restoreDataIfNeeded
  by_cases h : restoreSkip s = true
  · simp [h]
  · simp only [h, Bool.false_eq_true, if_false]
    cases k with
    | none => simp [h]
    | some b =>
        by_cases h2 : restoreSkip (replaySnapshot s b) = true
        · simp [h2]
        · simp [h2, replaySnapshot_idem]

/-- Claim C3 (counterexample):  A failing journal-entry insert is *not*
propagated: `createJournalEntry` swallows the storage error and returns the
sentinel `0` with the store unchanged, contradicting the claim that only SOS
activation logging degrades to a sentinel. -/
theorem createJournalEntry_swallows_failure :
    createJournalEntry emptyStore "note" "2024-03-01" (some (DBErr.sql 1))
      = (0, emptyStore) := rfl

/-- Claim C3 (amended):  The write-failure policy the code actually implements:
updates, deletes, the singleton saves, the reasons save and the user
mutations propagate the underlying error to the caller; but the creates of
user content — `createJournalEntry`, `createIntention`,
`createDailyCheckIn` — swallow the failure and return the sentinel `0`
exactly like `logSOSActivation`, and the debug helper `clearTodayCheckIn`
swallows failures with no sentinel at all. -/
theorem write_failure_propagation_policy :
    ∀ (s : Store) (e e2 : DBErr) (c n g t th d ts nm ph : String)
      (id step : Nat) (b : Bool) (sd : Option String) (rs : List String),
      createJournalEntry s c n (some e) = (0, s) ∧
      createIntention s c n (some e) = (0, s) ∧
      createDailyCheckIn s g t th c d n (some e) = (0, s) ∧
      logSOSActivation s ts n (some e) = (0, s) ∧
      clearTodayCheckIn s d (some e) = s ∧
      updateJournalEntry s id c n (some e) (some e2) = .error e2 ∧
      updateIntention s id c n (some e) (some e2) = .error e2 ∧
      deleteJournalEntry s id (some e) = .error e ∧
      deleteIntention s id (some e) = .error e ∧
      saveSupportPerson s nm ph n (some e) = .error e ∧
      saveSobrietyData s b c sd n (some e) = .error e ∧
      saveUserReasons s rs n (some e) = .error e ∧
      createUser s nm n (some e) = .error e ∧
      updateUserOnboarding s b step n (some e) = .error e ∧
      updateUserName s nm n (some e) = .error e := by
  intros
  exact ⟨rfl, rfl, rfl, rfl, rfl, rfl, rfl, rfl, rfl, rfl, rfl, rfl, rfl, rfl, rfl⟩

/-- When a check-in for `today` already exists, the `UNIQUE(date)` insert
fails and `createDailyCheckIn` returns the sentinel with the store unchanged. -/
theorem createDailyCheckIn_existing
    (s : Store) (g e t th today now : String)
    (h : s.daily_check_ins.any (fun r => r.date == today) = true) :
    createDailyCheckIn s g e t th today now none = (0, s) := by
  simp [createDailyCheckIn, h]

/-- Once a check-in for `today` exists, a whole sequence of further calls
returns all sentinels and leaves the store unchanged. -/
theorem runCheckInSeq_existing
    (today now : String) (args : List CheckInInput) :
    ∀ s : Store, s.daily_check_ins.any (fun r => r.date == today) = true →
      runCheckInSeq s today now args = (List.replicate args.length 0, s) := by
  induction args with
  | nil => intro s _; rfl
  | cons a rest ih =>
      intro s h
      simp [runCheckInSeq, createDailyCheckIn_existing s a.goal a.energy a.tone
        a.thankful today now h, ih s h, List.replicate_succ]

/-- Claim C6 (confirmed):  For every sequence of `createDailyCheckIn` calls on
the same calendar date against a store with no check-in for that date yet,
exactly one `daily_check_ins` row for the date exists afterwards; the first
call returns the fresh (positive) row id and every later call returns the
sentinel `0`, which is recognizably distinct from any successful creation. -/
theorem createDailyCheckIn_unique_per_date
    (s : Store) (today now : String) (args : List CheckInInput)
    (hnew : s.daily_check_ins.any (fun r => r.date == today) = false)
    (hid : 1 ≤ s.next_check_in_id) (hne : args ≠ []) :
    (runCheckInSeq s today now args).1
        = s.next_check_in_id :: List.replicate (args.length - 1) 0 ∧
      ((runCheckInSeq s today now args).2.daily_check_ins.countP
        (fun r => r.date == today)) = 1 ∧
      1 ≤ s.next_check_in_id := by
  cases args with
  | nil => exact absurd rfl hne
  | cons a rest =>
      have hzero : s.daily_check_ins.countP (fun r => r.date == today) = 0 := by
        rw [List.countP_eq_zero]
        intro x hx
        have := List.any_eq_false.mp hnew x hx
        simpa using this
      have hstep :
          createDailyCheckIn s a.goal a.energy a.tone a.thankful today now none
            = (s.next_check_in_id,
               { s with
                 daily_check_ins := s.daily_check_ins ++
                   [{ id := s.next_check_in_id, goal := a.goal, energy := a.energy
                      tone := a.tone, thankful := a.thankful, date := today
                      created_at := some now }]
                 next_check_in_id := s.next_check_in_id + 1 }) := by
        simp [createDailyCheckIn, hnew]
      refine ⟨?_, ?_, hid⟩ <;>
      · simp only [runCheckInSeq, hstep]
        rw [runCheckInSeq_existing today now rest _ (by simp)]
        simp [List.countP_append, hzero]

/-- Witness for C6: two check-in calls on the same date against the fresh
store end with exactly one row and the result list `[1, 0]`. -/
theorem createDailyCheckIn_unique_per_date_witness :
    emptyStore.daily_check_ins.any (fun r => r.date == "2024-05-05") = false ∧
      (runCheckInSeq emptyStore "2024-05-05" "2024-05-05T08:00:00.000Z"
          [⟨"walk", "low", "calm", "tea"⟩, ⟨"run", "high", "happy", "sun"⟩]).1
          = emptyStore.next_check_in_id :: List.replicate (2 - 1) 0 ∧
      ((runCheckInSeq emptyStore "2024-05-05" "2024-05-05T08:00:00.000Z"
          [⟨"walk", "low", "calm", "tea"⟩, ⟨"run", "high", "happy", "sun"⟩]).2.daily_check_ins.countP
        (fun r => r.date == "2024-05-05")) = 1 ∧
      1 ≤ emptyStore.next_check_in_id :=
  ⟨by decide,
    (createDailyCheckIn_unique_per_date emptyStore "2024-05-05"
      "2024-05-05T08:00:00.000Z"
      [⟨"walk", "low", "calm", "tea"⟩, ⟨"run", "high", "happy", "sun"⟩]
      (by decide) (by decide) (by decide)).1,
    (createDailyCheckIn_unique_per_date emptyStore "2024-05-05"
      "2024-05-05T08:00:00.000Z"
      [⟨"walk", "low", "calm", "tea"⟩, ⟨"run", "high", "happy", "sun"⟩]
      (by decide) (by decide) (by decide)).2.1,
    (createDailyCheckIn_unique_per_date emptyStore "2024-05-05"
      "2024-05-05T08:00:00.000Z"
      [⟨"walk", "low", "calm", "tea"⟩, ⟨"run", "high", "happy", "sun"⟩]
      (by decide) (by decide) (by decide)).2.2⟩

/-- Claim C7 (confirmed):  After any nonempty sequence of `saveSupportPerson`
calls (each `DELETE FROM support_persons` then one insert), the table holds
exactly one row, and `getSupportPerson` returns exactly the name and phone of
the last save in the sequence. -/
theorem saveSupportPerson_singleton_last_wins
    (s : Store) (now nm ph : String) (prev : List (String × String)) :
    (runSupportSaves s now (prev ++ [(nm, ph)])).support_persons.length = 1 ∧
      (runSupportSaves s now (prev ++ [(nm, ph)])).support_persons.map
        (fun r => (r.name, r.phone)) = [(nm, ph)] ∧
      (getSupportPersonFrom (runSupportSaves s now (prev ++ [(nm, ph)]))).map
        (fun r => (r.name, r.phone)) = some (nm, ph) := by
  induction prev generalizing s with
  | nil =>
      refine ⟨rfl, rfl, ?_⟩
      simp [runSupportSaves, saveSupportPerson, getSupportPersonFrom, lastById]
  | cons a rest ih =>
      simpa [runSupportSaves, saveSupportPerson] using
        ih { s with
              support_persons :=
                [{ id := s.next_support_person_id, name := a.1, phone := a.2
                   created_at := some now, updated_at := some now }]
              next_support_person_id := s.next_support_person_id + 1 }

/-- Claim C4 (counterexample):  `getUserReasons` called while the store handle
is not open does not lazily initialize: it throws the
`'Database not initialized'` error. -/
theorem getUserReasons_throws_when_not_initialized :
    getUserReasons none = .error DBErr.notInitialized := rfl

/-- Claim C4 (amended):  The lazy-initialization policy the code actually
implements: every read method except two lazily triggers initialization when
the handle is not open and then proceeds against the initialized store
(returning its empty/null sentinel instead of throwing when even
initialization fails); but `getUserReasons` and `getEncouragementStats`
throw `'Database not initialized'` instead of initializing. -/
theorem read_lazy_init_policy :
    ∀ (s : Store) (e : DBErr) (today : String) (id choice : Nat),
      getUser none (.ok s) = getUserFrom s ∧ getUser none (.error e) = none ∧
      getSupportPerson none (.ok s) = getSupportPersonFrom s ∧
      getSupportPerson none (.error e) = none ∧
      getSobrietyData none (.ok s) = getSobrietyDataFrom s ∧
      getSobrietyData none (.error e) = none ∧
      getJournalEntries none (.ok s) = getJournalEntriesFrom s ∧
      getJournalEntries none (.error e) = [] ∧
      getJournalEntry none (.ok s) id = getJournalEntry (some s) (.error e) id ∧
      getJournalEntry none (.error e) id = none ∧
      getIntentions none (.ok s) = getIntentionsFrom s ∧
      getIntentions none (.error e) = [] ∧
      getCurrentIntention none (.ok s) = getCurrentIntentionFrom s ∧
      getCurrentIntention none (.error e) = none ∧
      getTodayCheckIn none (.ok s) today = getTodayCheckInFrom s today ∧
      getTodayCheckIn none (.error e) today = none ∧
      getCheckInHistory none (.ok s) = getCheckInHistoryFrom s ∧
      getCheckInHistory none (.error e) = [] ∧
      getSOSLogs none (.ok s) = getSOSLogsFrom s ∧
      getSOSLogs none (.error e) = [] ∧
      getRandomEncouragement none (.ok s) choice = pickRandom s.encouragements choice ∧
      getRandomEncouragement none (.error e) choice = none ∧
      getRandomUnseenEncouragement none (.ok s) choice
        = pickRandom (s.encouragements.filter (fun r => !r.seen)) choice ∧
      getRandomUnseenEncouragement none (.error e) choice = none ∧
      getUserReasons none = .error DBErr.notInitialized ∧
      getUserReasons (some s) = .ok (getUserReasonsFrom s) ∧
      getEncouragementStats none = .error DBErr.notInitialized ∧
      getEncouragementStats (some s) = .ok (getEncouragementStatsFrom s) := by
  intros
  exact ⟨rfl, rfl, rfl, rfl, rfl, rfl, rfl, rfl, rfl, rfl, rfl, rfl, rfl, rfl,
    rfl, rfl, rfl, rfl, rfl, rfl, rfl, rfl, rfl, rfl, rfl, rfl, rfl, rfl⟩

/-- Witness for C10: on a store whose catalog has a seen encouragement, the
two clears coincide and the cleared row's `seen` flag is false. -/
theorem clearUserData_eq_clearAllData_witness :
    clearUserData storeWithSeenEncouragement = clearAllData storeWithSeenEncouragement ∧
      ({ encouragementDemo with seen := false } : EncouragementRow).seen = false :=
  ⟨(clearUserData_eq_clearAllData storeWithSeenEncouragement).1,
    (clearUserData_eq_clearAllData storeWithSeenEncouragement).2
      { encouragementDemo with seen := false } (by decide)⟩

end SoberBalance
